import Mathlib

/-!
Verification of the browser-side prediction client in `HPP/client/app.js`.

The JavaScript is UI glue around one network exchange.  We embed it shallowly:

* JavaScript values that occur in the program are `JSVal` (integers, `NaN`
  from a failed `parseInt`, strings, `null`, `undefined`).
* `parseIntJS` models `parseInt(s)` for decimal inputs: skip leading spaces,
  optional sign, longest digit run; no digits gives `NaN`.
* `formatPrice` models `Intl.NumberFormat('en-US', {style: 'currency',
  currency: 'USD', minimumFractionDigits: 0, maximumFractionDigits: 0})`
  restricted to the integer-valued inputs the client produces: a `$` sign,
  comma grouping of thousands, no decimals, `-$` for negatives and `$NaN`
  for `NaN`.
* `JSON.stringify` of the request body is modelled by `jsonOf`, which maps
  `NaN` (and `undefined` in array position) to JSON `null`, as the JSON
  serializer does.
* DOM mutations are modelled as pure records (`StatusUI`, `LoadingUI`,
  `ResultView`) and the submit handler as a pure function from the fetch
  outcome to the list of effects it performs, in order.
-/

/-- JavaScript values occurring in the client: integer numbers, `NaN`
(result of a failed `parseInt`), strings, `null` and `undefined`. -/
inductive JSVal where
  | num : Int → JSVal
  | nan : JSVal
  | str : String → JSVal
  | null : JSVal
  | undef : JSVal
deriving DecidableEq, Repr

/-- JavaScript truthiness of a `JSVal`: `0`, `NaN`, the empty string,
`null` and `undefined` are falsy, everything else is truthy. -/
def truthy : JSVal → Bool
  | .num n => n != 0
  | .nan => false
  | .str s => s != ""
  | .null => false
  | .undef => false

/-- Longest leading run of decimal digits of a character list. -/
def leadingDigits : List Char → List Char
  | [] => []
  | c :: cs => if c.isDigit then c :: leadingDigits cs else []

/-- Value of a list of decimal digit characters. -/
def digitsToNat (l : List Char) : Nat :=
  l.foldl (fun a c => a * 10 + (c.toNat - 48)) 0

/-- `parseInt(s)` as the client uses it (decimal form-field input): skip
leading spaces, then an optional sign followed by the longest run of
decimal digits; if that run is empty the result is `NaN`.  Trailing
non-digit characters are ignored, as `parseInt` does.  (The hexadecimal
`0x` prefix of `parseInt` is irrelevant to decimal form input and is not
modelled.) -/
def parseIntJS (s : String) : JSVal :=
  let cs := s.toList.dropWhile (fun c => c = ' ')
  match cs with
  | '-' :: rest =>
      let d := leadingDigits rest
      if d.isEmpty then .nan else .num (-(digitsToNat d : Int))
  | '+' :: rest =>
      let d := leadingDigits rest
      if d.isEmpty then .nan else .num (digitsToNat d)
  | _ =>
      let d := leadingDigits cs
      if d.isEmpty then .nan else .num (digitsToNat d)

/-- Insert a comma after every third character of a reversed digit list. -/
def groupRev : List Char → List Char
  | a :: b :: c :: rest =>
      if rest.isEmpty then [a, b, c]
      else a :: b :: c :: ',' :: groupRev rest
  | l => l

/-- Comma grouping of a digit string (`"650000"` becomes `"650,000"`). -/
def groupThousands (s : String) : String :=
  String.mk ((groupRev s.toList.reverse).reverse)

/-- `en-US` USD currency format of an integer with zero fraction digits. -/
def formatUSDInt (n : Int) : String :=
  if n < 0 then "-$" ++ groupThousands (toString n.natAbs)
  else "$" ++ groupThousands (toString n.natAbs)

/-- JavaScript `Number(v)` coercion, restricted to the integer-valued
inputs the client produces (`none` is `NaN`): numbers are themselves,
`null` and the empty/whitespace string are `0`, a string of an optional
sign and digits (with surrounding spaces) is its value, any other string
and `undefined` are `NaN`. -/
def toNumber : JSVal → Option Int
  | .num n => some n
  | .nan => none
  | .null => some 0
  | .undef => none
  | .str s =>
      let cs := (((s.toList.dropWhile (fun c => c = ' ')).reverse.dropWhile
        (fun c => c = ' ')).reverse)
      match cs with
      | [] => some 0
      | '-' :: rest =>
          if !rest.isEmpty && rest.all Char.isDigit then
            some (-(digitsToNat rest : Int))
          else none
      | '+' :: rest =>
          if !rest.isEmpty && rest.all Char.isDigit then
            some (digitsToNat rest)
          else none
      | _ =>
          if cs.all Char.isDigit then some (digitsToNat cs) else none

/-- `formatPrice(price)` of `app.js`: the `Intl.NumberFormat` call above
applied to the value, which first coerces it to a number; `NaN` renders
as `"$NaN"`. -/
def formatPrice (v : JSVal) : String :=
  match toNumber v with
  | some n => formatUSDInt n
  | none => "$NaN"

/-- `response.ok` of the Fetch API: status in the 2xx range. -/
def respOk (status : Nat) : Bool :=
  200 ≤ status && status ≤ 299

/-! ## Status check (`checkApiStatus`) -/

/-- Outcome of the liveness `fetch` in `checkApiStatus`: the call threw,
or a response with some HTTP status arrived. -/
inductive StatusOutcome where
  | fetchThrow : StatusOutcome
  | response : Nat → StatusOutcome
deriving DecidableEq, Repr

/-- Final state of the `apiStatus` element after `checkApiStatus`:
class, text, display, and the delay of a scheduled auto-hide timer
(`none` when no timer is scheduled). -/
structure StatusUI where
  className : String
  textContent : String
  display : String
  autoHide : Option Nat
deriving DecidableEq, Repr

/-- `checkApiStatus` of `app.js`: a 2xx response sets the online state
and schedules a 3000 ms hide; a non-ok response throws into the same
`catch` as a network failure, which sets the offline state with no
timer. -/
def checkApiStatus : StatusOutcome → StatusUI
  | .fetchThrow =>
      { className := "api-status offline"
        textContent := "❌ API Offline - Please start the Flask server"
        display := "block"
        autoHide := none }
  | .response status =>
      if respOk status then
        { className := "api-status online"
          textContent := "✅ API Connected"
          display := "block"
          autoHide := some 3000 }
      else
        { className := "api-status offline"
          textContent := "❌ API Offline - Please start the Flask server"
          display := "block"
          autoHide := none }

/-! ## Loading state (`setLoading`) -/

/-- State of the predict button, button text and spinner set by
`setLoading`. -/
structure LoadingUI where
  btnDisabled : Bool
  btnTextOpacity : String
  loadingDisplay : String
deriving DecidableEq, Repr

/-- `setLoading(isLoading)` of `app.js`. -/
def setLoadingUI (isLoading : Bool) : LoadingUI :=
  if isLoading then
    { btnDisabled := true, btnTextOpacity := "0", loadingDisplay := "block" }
  else
    { btnDisabled := false, btnTextOpacity := "1", loadingDisplay := "none" }

/-! ## Result rendering (`showResult`) -/

/-- What `showResult` writes into the result element: either the
price-display markup holding the formatted price, or a plain message with
the error/success marker. -/
inductive ResultContent where
  | priceHtml : String → ResultContent
  | messageHtml : Bool → String → ResultContent
deriving DecidableEq, Repr

/-- Final state of the `result` element after `showResult`: class,
content, display, and the delay of the auto-hide timer scheduled for
non-error results (`none` when no timer is scheduled). -/
structure ResultView where
  className : String
  content : ResultContent
  display : String
  autoHide : Option Nat
deriving DecidableEq, Repr

/-- `showResult(message, isError, price)` of `app.js`: renders the
formatted price when `price` is truthy and `isError` is false, otherwise
the message with the error/success marker; non-error results auto-hide
after 10000 ms. -/
def showResult (message : String) (isError : Bool) (price : JSVal) : ResultView :=
  { className := "result " ++ (if isError then "error" else "success")
    content :=
      if truthy price && !isError then .priceHtml (formatPrice price)
      else .messageHtml isError message
    display := "block"
    autoHide := if !isError then some 10000 else none }

/-! ## The submit handler -/

/-- Snapshot of the 12 named form fields (`formData.get` of each), all
present as strings. -/
structure FormValues where
  area : String
  bedrooms : String
  bathrooms : String
  stories : String
  mainroad : String
  guestroom : String
  basement : String
  hotwaterheating : String
  airconditioning : String
  parking : String
  prefarea : String
  furnishingstatus : String
deriving DecidableEq, Repr

/-- The `inputFeatures` array of the submit handler: the 12 values in the
exact order expected by the model, `parseInt` applied to the five integer
fields (positions 0-3 and 9), the raw strings elsewhere. -/
def inputFeatures (f : FormValues) : List JSVal :=
  [ parseIntJS f.area
  , parseIntJS f.bedrooms
  , parseIntJS f.bathrooms
  , parseIntJS f.stories
  , .str f.mainroad
  , .str f.guestroom
  , .str f.basement
  , .str f.hotwaterheating
  , .str f.airconditioning
  , parseIntJS f.parking
  , .str f.prefarea
  , .str f.furnishingstatus ]

/-- A JSON value as it appears in the serialized request body. -/
inductive JsonVal where
  | jnum : Int → JsonVal
  | jstr : String → JsonVal
  | jnull : JsonVal
deriving DecidableEq, Repr

/-- `JSON.stringify` of one array element: numbers and strings serialize
to themselves; `NaN` serializes to `null` (the JSON serializer has no
`NaN`), as do `null` and `undefined` in array position. -/
def jsonOf : JSVal → JsonVal
  | .num n => .jnum n
  | .nan => .jnull
  | .str s => .jstr s
  | .null => .jnull
  | .undef => .jnull

/-- The serialized request body `{"input": [...]}` sent by the `fetch`
call: `JSON.stringify` applied to the `inputFeatures` array. -/
structure RequestBody where
  input : List JsonVal
deriving DecidableEq, Repr

/-- Request body built from the form values. -/
def requestBody (f : FormValues) : RequestBody :=
  ⟨(inputFeatures f).map jsonOf⟩

/-- Parsed JSON body of a prediction response: the `estimated_price`
field (`undef` when absent) and the `error` field (a string when
present, `none` when absent). -/
structure RespBody where
  estimated_price : JSVal
  error : Option String
deriving DecidableEq, Repr

/-- `data.error || 'Prediction failed'`: the server's error string when
present and truthy (non-empty), else the generic message. -/
def errMessage (body : RespBody) : String :=
  match body.error with
  | some s => if s = "" then "Prediction failed" else s
  | none => "Prediction failed"

/-- Outcome of the prediction round trip in the submit handler: the
`fetch` call threw (network failure), `response.json()` threw (malformed
body, with the response's status), or a response with a status and a
parsed JSON body. -/
inductive FetchOutcome where
  | fetchThrow : FetchOutcome
  | jsonThrow : Nat → FetchOutcome
  | responded : Nat → RespBody → FetchOutcome
deriving DecidableEq, Repr

/-- One observable effect of the submit handler, in program order. -/
inductive Effect where
  | setLoading : Bool → Effect
  | dispatch : RequestBody → Effect
  | consoleError : Effect
  | render : ResultView → Effect
deriving DecidableEq, Repr

/-- The fixed generic network-error message of the `catch` block. -/
def networkErrorMsg : String :=
  "Network error - please check if the API server is running"

/-- The submit handler of `app.js` as the ordered list of effects it
performs for a given form snapshot and fetch outcome: `setLoading(true)`,
then inside `try` the dispatch of the serialized body and the response
branch (`response.ok && data.estimated_price` truthy renders the price,
otherwise `data.error || 'Prediction failed'` renders as an error); any
thrown exception is caught, logged and rendered as the generic network
error; the `finally` block always runs `setLoading(false)` last. -/
def submitHandler (f : FormValues) (out : FetchOutcome) : List Effect :=
  Effect.setLoading true ::
  Effect.dispatch (requestBody f) ::
  (match out with
   | .fetchThrow =>
       [Effect.consoleError, Effect.render (showResult networkErrorMsg true .null)]
   | .jsonThrow _ =>
       [Effect.consoleError, Effect.render (showResult networkErrorMsg true .null)]
   | .responded status body =>
       if respOk status && truthy body.estimated_price then
         [Effect.render (showResult "" false body.estimated_price)]
       else
         [Effect.render (showResult (errMessage body) true .null)])
  ++ [Effect.setLoading false]

/-- The sample form values installed by the `DOMContentLoaded` handler. -/
def sampleForm : FormValues :=
  { area := "7420", bedrooms := "4", bathrooms := "2", stories := "3"
    mainroad := "yes", guestroom := "no", basement := "no"
    hotwaterheating := "no", airconditioning := "yes"
    parking := "2", prefarea := "yes", furnishingstatus := "furnished" }

/-- The five integer form fields, in array-position order. -/
def intFieldVal (f : FormValues) : Fin 5 → String
  | 0 => f.area
  | 1 => f.bedrooms
  | 2 => f.bathrooms
  | 3 => f.stories
  | 4 => f.parking

/-- Array position of each integer field in `inputFeatures`. -/
def intFieldPos : Fin 5 → Nat
  | 0 => 0
  | 1 => 1
  | 2 => 2
  | 3 => 3
  | 4 => 9

/-- Recognizes the `setLoading(false)` effect. -/
def isClearLoading : Effect → Bool
  | .setLoading false => true
  | _ => false

/-- Recognizes a render of the price-display (success) markup. -/
def isPriceRender : Effect → Bool
  | .render v =>
      match v.content with
      | .priceHtml _ => true
      | .messageHtml _ _ => false
  | _ => false

example : parseIntJS "7420" = .num 7420 := by decide
example : parseIntJS "abc" = .nan := by decide
example : parseIntJS "" = .nan := by decide
example : parseIntJS "12abc" = .num 12 := by decide
example : parseIntJS "-5" = .num (-5) := by decide
example : formatPrice (.num 650000) = "$650,000" := by decide
example : formatPrice (.num 1000) = "$1,000" := by decide
example : formatPrice (.num (-5)) = "-$5" := by decide
example : formatPrice .nan = "$NaN" := by decide
example : formatPrice (.num 100) = "$100" := by decide

/-- Response body `{"estimated_price": 0}` of the truthy-check edge case. -/
def zeroPriceBody : RespBody := ⟨.num 0, none⟩

/-- Response body `{"error": ""}` with an empty error string. -/
def emptyErrorBody : RespBody := ⟨.undef, some ""⟩

/-- Response body `{"error": "bad input"}`. -/
def badInputBody : RespBody := ⟨.undef, some "bad input"⟩

/-- Response body `{"estimated_price": -650000}`. -/
def negPriceBody : RespBody := ⟨.num (-650000), none⟩

/-- Sample form with a non-numeric `area` field. -/
def badAreaForm : FormValues := { sampleForm with area := "abc" }

/-- Sample form with an empty `area` field. -/
def emptyAreaForm : FormValues := { sampleForm with area := "" }

/-- C1: for a submission whose 12 form fields are all present (and whose
five integer fields parse), the serialized request array in the body's
`input` field has exactly 12 elements in the fixed order area, bedrooms,
bathrooms, stories, mainroad, guestroom, basement, hotwaterheating,
airconditioning, parking, prefarea, furnishingstatus, with positions 0-3
and 9 the parsed integer values and the remaining positions the raw
string values; that body is what the handler dispatches. -/
theorem c1_request_array_order (f : FormValues) (a b c d p : Int)
    (ha : parseIntJS f.area = .num a) (hb : parseIntJS f.bedrooms = .num b)
    (hc : parseIntJS f.bathrooms = .num c) (hd : parseIntJS f.stories = .num d)
    (hp : parseIntJS f.parking = .num p) :
    (requestBody f).input =
      [ .jnum a, .jnum b, .jnum c, .jnum d
      , .jstr f.mainroad, .jstr f.guestroom, .jstr f.basement
      , .jstr f.hotwaterheating, .jstr f.airconditioning
      , .jnum p, .jstr f.prefarea, .jstr f.furnishingstatus ] ∧
    (requestBody f).input.length = 12 ∧
    ∀ out : FetchOutcome, Effect.dispatch (requestBody f) ∈ submitHandler f out := by
  refine ⟨?_, rfl, ?_⟩
  · simp [requestBody, inputFeatures, ha, hb, hc, hd, hp, jsonOf]
  · intro out
    cases out <;> simp [submitHandler]

theorem c1_request_array_order_witness :
    parseIntJS sampleForm.area = JSVal.num 7420 ∧
    (requestBody sampleForm).input =
      [ .jnum 7420, .jnum 4, .jnum 2, .jnum 3
      , .jstr "yes", .jstr "no", .jstr "no", .jstr "no", .jstr "yes"
      , .jnum 2, .jstr "yes", .jstr "furnished" ] :=
  ⟨by decide,
   (c1_request_array_order sampleForm 7420 4 2 3 2 (by decide) (by decide)
      (by decide) (by decide) (by decide)).1⟩

/-- C2: an HTTP-success response whose `estimated_price` is falsy (for
example `0`) takes the error path: the handler renders an error result
with `data.error || 'Prediction failed'` as the message, and no
price-rendering effect occurs in the trace. -/
theorem c2_falsy_price_error_path (f : FormValues) (status : Nat) (body : RespBody)
    (hok : respOk status = true) (hfalsy : truthy body.estimated_price = false) :
    submitHandler f (.responded status body) =
      [ Effect.setLoading true, Effect.dispatch (requestBody f)
      , Effect.render (showResult (errMessage body) true .null)
      , Effect.setLoading false ] ∧
    (showResult (errMessage body) true .null).content =
      ResultContent.messageHtml true (errMessage body) ∧
    (submitHandler f (.responded status body)).countP isPriceRender = 0 := by
  have htr : submitHandler f (.responded status body) =
      [ Effect.setLoading true, Effect.dispatch (requestBody f)
      , Effect.render (showResult (errMessage body) true .null)
      , Effect.setLoading false ] := by
    simp [submitHandler, hok, hfalsy]
  refine ⟨htr, rfl, ?_⟩
  rw [htr]
  rfl

theorem c2_falsy_price_error_path_witness :
    respOk 200 = true ∧ truthy zeroPriceBody.estimated_price = false ∧
    submitHandler sampleForm (.responded 200 zeroPriceBody) =
      [ Effect.setLoading true, Effect.dispatch (requestBody sampleForm)
      , Effect.render (showResult "Prediction failed" true .null)
      , Effect.setLoading false ] :=
  ⟨by decide, by decide,
   (c2_falsy_price_error_path sampleForm 200 zeroPriceBody (by decide) (by decide)).1⟩

/-- C3: for every submission and every outcome (success, server error or
caught exception), the trace contains exactly one `setLoading(false)`
effect and it is the last effect, and `setLoading(false)` re-enables the
submit control and hides the loading indicator. -/
theorem c3_cleanup_exactly_once (f : FormValues) (out : FetchOutcome) :
    (submitHandler f out).countP isClearLoading = 1 ∧
    (submitHandler f out).getLast? = some (Effect.setLoading false) ∧
    setLoadingUI false =
      { btnDisabled := false, btnTextOpacity := "1", loadingDisplay := "none" } := by
  refine ⟨?_, ?_, rfl⟩ <;>
  · cases out with
    | fetchThrow => rfl
    | jsonThrow status => rfl
    | responded status body =>
        cases h : respOk status && truthy body.estimated_price <;>
          simp only [submitHandler, h] <;> rfl

/-- C4 counterexample: an HTTP 400 response whose body contains the
error field `""` renders the generic "Prediction failed" message, not
the field's value verbatim: `data.error || 'Prediction failed'` discards
a falsy (empty) error string. -/
theorem c4_counterexample_empty_error :
    respOk 400 = false ∧
    emptyErrorBody.error = some "" ∧
    submitHandler sampleForm (.responded 400 emptyErrorBody) =
      [ Effect.setLoading true, Effect.dispatch (requestBody sampleForm)
      , Effect.render (showResult "Prediction failed" true .null)
      , Effect.setLoading false ] ∧
    "Prediction failed" ≠ "" := by
  refine ⟨by decide, rfl, by decide, by decide⟩

/-- C4 (amended): for every non-success response whose body contains a
non-empty error field, the rendered message equals that field's value
verbatim; in particular HTTP 400 with `{"error": "bad input"}` renders
"bad input". -/
theorem c4_error_rendered_verbatim (f : FormValues) (status : Nat) (body : RespBody)
    (s : String) (hok : respOk status = false) (herr : body.error = some s)
    (hne : s ≠ "") :
    submitHandler f (.responded status body) =
      [ Effect.setLoading true, Effect.dispatch (requestBody f)
      , Effect.render (showResult s true .null), Effect.setLoading false ] ∧
    (showResult s true .null).content = ResultContent.messageHtml true s := by
  have hmsg : errMessage body = s := by
    simp [errMessage, herr, hne]
  refine ⟨?_, rfl⟩
  simp [submitHandler, hok, hmsg]

theorem c4_error_rendered_verbatim_witness :
    respOk 400 = false ∧ badInputBody.error = some "bad input" ∧
    submitHandler sampleForm (.responded 400 badInputBody) =
      [ Effect.setLoading true, Effect.dispatch (requestBody sampleForm)
      , Effect.render (showResult "bad input" true .null)
      , Effect.setLoading false ] :=
  ⟨by decide, rfl,
   (c4_error_rendered_verbatim sampleForm 400 badInputBody "bad input"
      (by decide) rfl (by decide)).1⟩

/-- C5: in the status check every non-2xx response yields exactly the
same indicator state as a thrown network exception, namely the offline
state shown with no auto-hide timer, while every 2xx response sets the
connected state with a 3000 ms auto-hide timer. -/
theorem c5_status_offline_identical (sbad sgood : Nat)
    (hbad : respOk sbad = false) (hgood : respOk sgood = true) :
    checkApiStatus (.response sbad) = checkApiStatus .fetchThrow ∧
    checkApiStatus .fetchThrow =
      { className := "api-status offline"
        textContent := "❌ API Offline - Please start the Flask server"
        display := "block", autoHide := none } ∧
    checkApiStatus (.response sgood) =
      { className := "api-status online", textContent := "✅ API Connected"
        display := "block", autoHide := some 3000 } := by
  refine ⟨?_, rfl, ?_⟩ <;> simp [checkApiStatus, hbad, hgood]

theorem c5_status_offline_identical_witness :
    respOk 500 = false ∧ respOk 200 = true ∧
    checkApiStatus (.response 500) = checkApiStatus .fetchThrow ∧
    checkApiStatus (.response 200) =
      { className := "api-status online", textContent := "✅ API Connected"
        display := "block", autoHide := some 3000 } :=
  ⟨by decide, by decide,
   (c5_status_offline_identical 500 200 (by decide) (by decide)).1,
   (c5_status_offline_identical 500 200 (by decide) (by decide)).2.2⟩

/-- C6: when one of the five integer fields (area, bedrooms, bathrooms,
stories, parking) does not parse as an integer, the resulting `NaN`
stands in the request array at that field's position, and the handler
still dispatches the body for every outcome: there is no client-side
validation or rejection before dispatch. -/
theorem c6_nan_forwarded (f : FormValues) (k : Fin 5)
    (h : parseIntJS (intFieldVal f k) = .nan) :
    (inputFeatures f).get? (intFieldPos k) = some JSVal.nan ∧
    ∀ out : FetchOutcome, Effect.dispatch (requestBody f) ∈ submitHandler f out := by
  constructor
  · fin_cases k <;> simp_all [inputFeatures, intFieldVal, intFieldPos]
  · intro out
    cases out <;> simp [submitHandler]

theorem c6_nan_forwarded_witness :
    parseIntJS (intFieldVal badAreaForm 0) = JSVal.nan ∧
    (inputFeatures badAreaForm).get? (intFieldPos 0) = some JSVal.nan :=
  ⟨by decide, (c6_nan_forwarded badAreaForm 0 (by decide)).1⟩

/-- C7: a thrown `fetch` and a thrown `response.json()` are both caught:
in either case the handler's trace is exactly the loading transition,
the dispatch attempt, the console log and an error render of the fixed
generic network-error message, closed by `setLoading(false)` — the
handler is total, so the exception never propagates out of it. -/
theorem c7_exception_caught (f : FormValues) :
    submitHandler f .fetchThrow =
      [ Effect.setLoading true, Effect.dispatch (requestBody f), Effect.consoleError
      , Effect.render (showResult networkErrorMsg true .null)
      , Effect.setLoading false ] ∧
    (∀ status : Nat, submitHandler f (.jsonThrow status) = submitHandler f .fetchThrow) ∧
    (showResult networkErrorMsg true .null).content =
      ResultContent.messageHtml true networkErrorMsg :=
  ⟨rfl, fun _ => rfl, rfl⟩

/-- C8: a successful response with body `{"estimated_price": 650000}`
renders the success view containing the currency-formatted value
`$650,000` — comma grouping, no decimal digits. -/
theorem c8_currency_format (f : FormValues) :
    formatPrice (.num 650000) = "$650,000" ∧
    ∀ err : Option String,
      submitHandler f (.responded 200 ⟨.num 650000, err⟩) =
        [ Effect.setLoading true, Effect.dispatch (requestBody f)
        , Effect.render (showResult "" false (.num 650000))
        , Effect.setLoading false ] ∧
      (showResult "" false (.num 650000)).content =
        ResultContent.priceHtml "$650,000" := by
  refine ⟨by decide, fun err => ⟨rfl, by decide⟩⟩

/-- C9: the success check accepts any truthy `estimated_price`, not only
positive numbers: for every HTTP-success response whose price value is
truthy (negative numbers and non-empty strings included), the success
path is taken and the price-display markup with the formatted value is
rendered. -/
theorem c9_truthy_price_success (f : FormValues) (status : Nat) (body : RespBody)
    (hok : respOk status = true) (hpr : truthy body.estimated_price = true) :
    submitHandler f (.responded status body) =
      [ Effect.setLoading true, Effect.dispatch (requestBody f)
      , Effect.render (showResult "" false body.estimated_price)
      , Effect.setLoading false ] ∧
    (showResult "" false body.estimated_price).content =
      ResultContent.priceHtml (formatPrice body.estimated_price) ∧
    truthy (JSVal.num (-650000)) = true ∧
    truthy (JSVal.str "soon") = true := by
  refine ⟨?_, ?_, by decide, by decide⟩
  · simp [submitHandler, hok, hpr]
  · simp [showResult, hpr]

theorem c9_truthy_price_success_witness :
    respOk 200 = true ∧ truthy negPriceBody.estimated_price = true ∧
    (showResult "" false negPriceBody.estimated_price).content =
      ResultContent.priceHtml (formatPrice negPriceBody.estimated_price) :=
  ⟨by decide, by decide,
   (c9_truthy_price_success sampleForm 200 negPriceBody (by decide) (by decide)).2.1⟩

/-- C10: when the `area` field does not parse as an integer, the value
actually transmitted at position 0 of the serialized `input` array is
JSON `null` (JSON serialization maps `NaN` to `null`), and the body is
still dispatched for every outcome. -/
theorem c10_nan_transmits_null (f : FormValues)
    (h : parseIntJS f.area = .nan) :
    (requestBody f).input.get? 0 = some JsonVal.jnull ∧
    ∀ out : FetchOutcome, Effect.dispatch (requestBody f) ∈ submitHandler f out := by
  constructor
  · simp [requestBody, inputFeatures, h, jsonOf]
  · intro out
    cases out <;> simp [submitHandler]

theorem c10_nan_transmits_null_witness :
    parseIntJS emptyAreaForm.area = JSVal.nan ∧
    (requestBody emptyAreaForm).input.get? 0 = some JsonVal.jnull :=
  ⟨by decide, (c10_nan_transmits_null emptyAreaForm (by decide)).1⟩
